import Mathlib

/-!
Verification of the biometric access-control repository.

The repository contains two Python subsystems:

* `biometric_query_system/` — the R307 sensor query service
  (`biometric_service.py`, `sensor_interface.py`, `database.py`): validates a
  base64 template and a finger token, looks the template up in storage, logs
  the attempt and answers the sensor with YES/NO.
* `deep/` — a second access-control loop (`principal/main.py`,
  `biometria/matcher.py`, `biometria/encryption.py`,
  `database/db_connector.py`, `hardware/gate_controller.py`): cosine-similarity
  matching of an encrypted-at-rest numeric template, driving a GPIO gate.

This file is a shallow embedding of both subsystems.  Pure Python helpers
become Lean functions; the external collaborators (PostgreSQL, the serial
port, GPIO) become explicit record-of-functions parameters or event traces;
Python exceptions become `Except`/`Option`.  Floating-point vectors are
idealised as rational vectors with real-valued cosine similarity.
-/

namespace BQS

/-! ## Python `base64.b64decode` (non-strict mode)

`_validate_input` and `_convert_template` in `biometric_service.py` call
`base64.b64decode(template_base64)` with `validate=False`.  CPython first
requires the string to be pure ASCII, then runs `binascii.a2b_base64` in
non-strict mode: characters outside the base64 alphabet are silently
discarded, padding ends the decode once a quartet can be completed, and a
leftover quartet position at the end raises `binascii.Error`.  The loop below
mirrors the C implementation state machine (`quad_pos`, `leftchar`, `pads`). -/

/-- Value of a base64 alphabet character, `none` for any other character. -/
def b64Val (c : Char) : Option Nat :=
  if 'A' ≤ c ∧ c ≤ 'Z' then some (c.toNat - 65)
  else if 'a' ≤ c ∧ c ≤ 'z' then some (c.toNat - 71)
  else if '0' ≤ c ∧ c ≤ '9' then some (c.toNat + 4)
  else if c = '+' then some 62
  else if c = '/' then some 63
  else none

/-- The `binascii.a2b_base64` decode loop (non-strict mode), carrying the
quartet position, the pending high bits, the count of pending pads and the
output bytes in reverse order. -/
def a2bBase64Loop : List Char → Nat → Nat → Nat → List Nat → Except String (List Nat)
  | [], quadPos, _, _, acc =>
    if quadPos = 0 then .ok acc.reverse
    else if quadPos = 1 then
      .error "Invalid base64-encoded string: number of data characters cannot be 1 more than a multiple of 4"
    else .error "Incorrect padding"
  | c :: rest, quadPos, leftChar, pads, acc =>
    if c = '=' then
      if 2 ≤ quadPos then
        if 4 ≤ quadPos + (pads + 1) then .ok acc.reverse
        else a2bBase64Loop rest quadPos leftChar (pads + 1) acc
      else a2bBase64Loop rest quadPos leftChar pads acc
    else
      match b64Val c with
      | none => a2bBase64Loop rest quadPos leftChar pads acc
      | some d =>
        if quadPos = 0 then a2bBase64Loop rest 1 d 0 acc
        else if quadPos = 1 then
          a2bBase64Loop rest 2 (d % 16) 0 ((leftChar * 4 + d / 16) :: acc)
        else if quadPos = 2 then
          a2bBase64Loop rest 3 (d % 4) 0 ((leftChar * 16 + d / 4) :: acc)
        else a2bBase64Loop rest 0 0 0 ((leftChar * 64 + d) :: acc)

/-- `base64.b64decode` on a `str` argument: ASCII check, then the
non-strict `a2b_base64` loop. -/
def pyB64Decode (s : String) : Except String (List Nat) :=
  if s.data.all (fun c => c.toNat < 128) then a2bBase64Loop s.data 0 0 0 []
  else .error "string argument should contain only ASCII characters"

/-! ## Data model of the query service -/

/-- `AccessResult` enum of `biometric_service.py`. -/
inductive AccessResult where
  | GRANTED
  | DENIED
  | ERROR
deriving DecidableEq, Repr

/-- `.value` of the `AccessResult` enum. -/
def AccessResult.value : AccessResult → String
  | .GRANTED => "GRANTED"
  | .DENIED => "DENIED"
  | .ERROR => "ERROR"

/-- The ten `FingerType` enum values. -/
def validFingers : List String :=
  ["thumb_right", "index_right", "middle_right", "ring_right", "pinky_right",
   "thumb_left", "index_left", "middle_left", "ring_left", "pinky_left"]

/-- Row returned by `db_manager.find_biometric_by_template`. -/
structure PersonInfo where
  person_id : Nat
  full_name : String
  cpf : String
  person_type : String
  finger : String
deriving DecidableEq, Repr

/-- Row returned by `db_manager.get_unit_by_code`. -/
structure UnitInfo where
  id : Nat
  name : String
  unit_code : String
deriving DecidableEq, Repr

/-- One call handed to `db_manager.log_access_attempt` — the audit entry the
core produces for the storage collaborator. -/
structure LogCall where
  person_id : Option Nat
  unit_id : Nat
  biometric_device : String
  python_verified : Bool
deriving DecidableEq, Repr

/-- The storage collaborator (`database.py` / PostgreSQL), as the behaviours
its three query methods can show: a lookup may find a row, find nothing, or
raise (`Except.error`). -/
structure Db where
  getUnitByCode : String → Option UnitInfo
  findBiometricByTemplate : List Nat → String → Except String (Option PersonInfo)
  logAccessAttempt : Option Nat → Nat → String → Bool → Except String Nat

/-- `config.sensor.device` default. -/
def sensorDevice : String := "R307"

/-- The response dict built by `_create_response` / `_create_error_response`:
`error = none` models the absence of the `error` key. -/
structure Response where
  access_granted : Bool
  result : String
  error : Option String
  person : Option PersonInfo
  unit_code : String
  device : String
deriving DecidableEq, Repr

/-- Service state after `__init__`: the unit code and the resolved unit row. -/
structure ServiceState where
  unit_code : String
  unit_info : UnitInfo
deriving DecidableEq, Repr

/-- `BiometricQueryService._initialize_unit`: a missing unit row is replaced
by a default record with id 1. -/
def initializeUnit (db : Db) (unitCode : String) : UnitInfo :=
  match db.getUnitByCode unitCode with
  | some u => u
  | none => { id := 1, name := "Default Unit", unit_code := unitCode }

/-- `BiometricQueryService.__init__`. -/
def mkService (db : Db) (unitCode : String) : ServiceState :=
  { unit_code := unitCode, unit_info := initializeUnit db unitCode }

/-- `BiometricQueryService._validate_input`: `some msg` is the
`valid = False` dict, `none` is `valid = True`. -/
def validateInput (templateBase64 finger : String) : Option String :=
  if templateBase64.trim = "" then some "Template data is required"
  else if finger ∉ validFingers then
    some ("Invalid finger type. Valid options: " ++ String.intercalate ", " validFingers)
  else match pyB64Decode templateBase64 with
    | .error _ => some "Invalid base64 template format"
    | .ok _ => none

/-- `BiometricQueryService._convert_template`: re-raises decode failures as
`ValueError`. -/
def convertTemplate (templateBase64 : String) : Except String (List Nat) :=
  match pyB64Decode templateBase64 with
  | .ok bs => .ok bs
  | .error e => .error ("Invalid template format: " ++ e)

/-- `BiometricQueryService._create_response` (GRANTED/DENIED): no `error`
key. -/
def createResponse (svc : ServiceState) (res : AccessResult)
    (personInfo : Option PersonInfo) : Response :=
  { access_granted := res = AccessResult.GRANTED
    result := res.value
    error := none
    person := personInfo
    unit_code := svc.unit_code
    device := sensorDevice }

/-- `BiometricQueryService._create_error_response`: result `ERROR`, the
`error` key present. -/
def createErrorResponse (svc : ServiceState) (errorMessage : String) : Response :=
  { access_granted := false
    result := AccessResult.ERROR.value
    error := some errorMessage
    person := none
    unit_code := svc.unit_code
    device := sensorDevice }

/-- The audit entry `_log_access_attempt` hands to
`db_manager.log_access_attempt`; the outcome of that call is swallowed. -/
def mkLogCall (svc : ServiceState) (personInfo : Option PersonInfo)
    (res : AccessResult) : LogCall :=
  { person_id := personInfo.map (·.person_id)
    unit_id := svc.unit_info.id
    biometric_device := sensorDevice
    python_verified := res = AccessResult.GRANTED }

/-- `BiometricQueryService.process_biometric_query`.  Returns the response
together with the list of audit entries produced during the call.  The three
throw sites inside the outer `try` — `_convert_template` and the two
`db_manager` calls — map to the `except` branch, which builds a
`System error:` response; `_log_access_attempt` catches its own failures, so
a failing `log_access_attempt` never reaches the `except` branch. -/
def processBiometricQuery (db : Db) (svc : ServiceState)
    (templateBase64 finger : String) : Response × List LogCall :=
  match validateInput templateBase64 finger with
  | some err => (createErrorResponse svc err, [])
  | none =>
    match convertTemplate templateBase64 with
    | .error e => (createErrorResponse svc ("System error: " ++ e), [])
    | .ok templateData =>
      match db.findBiometricByTemplate templateData finger with
      | .error e => (createErrorResponse svc ("System error: " ++ e), [])
      | .ok personInfo =>
        let res := if personInfo.isSome then AccessResult.GRANTED else AccessResult.DENIED
        (createResponse svc res personInfo, [mkLogCall svc personInfo res])

/-! ## Sensor interface (`sensor_interface.py`) -/

/-- A parsed sensor command (`_read_sensor_command` output). -/
structure Command where
  type : String
  template : String
  finger : String
deriving DecidableEq, Repr

/-- `SensorInterface._process_command`. -/
def processCommand (db : Db) (svc : ServiceState) (cmd : Command) :
    Response × List LogCall :=
  let commandType := cmd.type.toUpper
  if commandType = "QUERY" ∨ commandType = "VERIFY" then
    processBiometricQuery db svc cmd.template cmd.finger
  else if commandType = "TEST" then
    ({ access_granted := true, result := "TEST_OK", error := none,
       person := none, unit_code := svc.unit_code, device := sensorDevice }, [])
  else
    ({ access_granted := false, result := "UNKNOWN_COMMAND",
       error := some ("Unknown command: " ++ commandType),
       person := none, unit_code := svc.unit_code, device := sensorDevice }, [])

/-- `SensorInterface._send_response`: the exact characters written to the
serial port.  The source f-string is `"{sensor_response}\\n"`, whose Python
value ends in the two characters backslash and `n` — not in a newline. -/
def sendResponse (response : Response) : String :=
  (if response.access_granted then "YES" else "NO") ++ "\\n"

end BQS

namespace Deep

/-! ## Key derivation and cipher (`biometria/encryption.py`)

`BiometricEncryptor` delegates to the third-party `cryptography` library
(PBKDF2-HMAC key derivation, Fernet authenticated encryption); only its
wrapper lives in the repository.  The cipher itself is therefore modelled
from the spec (§4.1): a deterministic keyed byte transformation plus an
authentication tag that `decrypt` verifies before returning, failing closed
otherwise. -/

/-- Modelled from the spec: `derive_key(passphrase, salt) -> key`, a
password-based derivation of a symmetric key held only in memory.  The
PBKDF2-HMAC-SHA256 internals are not in the repository; a keyed fold over the
passphrase and salt stands in for them. -/
def deriveKey (passphrase salt : String) : Nat :=
  (passphrase ++ salt).data.foldl (fun a c => (a * 131 + c.toNat + 1) % 4294967296) 0

/-- The process-lifetime key of `BiometricEncryptor.__init__`, derived from
the `Config.ENCRYPTION_KEY` / `Config.ENCRYPTION_SALT` defaults. -/
def encryptionKey : Nat := deriveKey "default-encryption-key-123" "default-salt-123"

/-- Modelled from the spec: the authentication tag of the authenticated
symmetric cipher (Fernet computes an HMAC over the ciphertext body; a keyed
fold stands in for it). -/
def macTag (key : Nat) (body : List Nat) : Nat :=
  body.foldl (fun a b => (a * 131 + b + 1) % 1000003) (key % 1000003)

/-- Modelled from the spec: `encrypt(key, plaintext) -> ciphertext` of the
authenticated cipher behind `BiometricEncryptor.encrypt_template` — the body
is the keystream-masked plaintext, prefixed by its authentication tag. -/
def encryptTemplate (key : Nat) (templateData : String) : List Nat :=
  let body := templateData.data.map (fun c => c.toNat ^^^ (key % 256))
  macTag key body :: body

/-- Modelled from the spec: `decrypt(key, ciphertext) -> plaintext` behind
`BiometricEncryptor.decrypt_template`; verifies the authentication tag and
fails (`none`, the `InvalidToken` raise) when it does not match. -/
def decryptTemplate (key : Nat) (encryptedData : List Nat) : Option String :=
  match encryptedData with
  | [] => none
  | tag :: body =>
    if tag = macTag key body then
      if body.all (fun b => decide (Nat.isValidChar (b ^^^ (key % 256)))) then
        some ⟨body.map (fun b => Char.ofNat (b ^^^ (key % 256)))⟩
      else none
    else none

/-! ## Template deserialization (`matcher.py._deserialize_template`)

`np.array([float(x) for x in template_str.split(',')])` — Python `float`
literals are modelled as rationals. -/

/-- Digit-string value; `none` unless the string is one or more digits. -/
def digitsVal (cs : List Char) : Option Nat :=
  if cs ≠ [] ∧ cs.all Char.isDigit then
    some (cs.foldl (fun a c => a * 10 + (c.toNat - 48)) 0)
  else none

/-- Mantissa of a Python float literal: `digits`, `digits.digits`,
`digits.` or `.digits`. -/
def parseMantissa (s : String) : Option ℚ :=
  match s.splitOn "." with
  | [i] => (digitsVal i.data).map (fun n => (n : ℚ))
  | [i, f] =>
    if i = "" ∧ f = "" then none
    else if (i = "" ∨ (i.data.all Char.isDigit ∧ i ≠ "")) ∧
            (f = "" ∨ (f.data.all Char.isDigit ∧ f ≠ "")) then
      some ((i.data.foldl (fun a c => a * 10 + (c.toNat - 48)) 0 : ℚ) +
            (f.data.foldl (fun a c => a * 10 + (c.toNat - 48)) 0 : ℚ) / (10 : ℚ) ^ f.length)
    else none
  | _ => none

/-- Exponent part of a Python float literal: optional sign, then digits. -/
def parseExp (s : String) : Option ℤ :=
  if s.startsWith "-" then (digitsVal (s.drop 1).data).map (fun n => -(n : ℤ))
  else if s.startsWith "+" then (digitsVal (s.drop 1).data).map (fun n => (n : ℤ))
  else (digitsVal s.data).map (fun n => (n : ℤ))

/-- Python `float(x)` on a decimal literal (sign, mantissa, optional
exponent), idealised over ℚ; `none` is the `ValueError` raise. -/
def pyFloat (s : String) : Option ℚ :=
  let t := s.trim
  let (sign, rest) : ℚ × String :=
    if t.startsWith "-" then (-1, t.drop 1)
    else if t.startsWith "+" then (1, t.drop 1)
    else (1, t)
  match (rest.toLower).splitOn "e" with
  | [m] => (parseMantissa m).map (fun q => sign * q)
  | [m, e] => do
    let mv ← parseMantissa m
    let ev ← parseExp e
    pure (sign * mv * (10 : ℚ) ^ ev)
  | _ => none

/-- `BiometricMatcher._deserialize_template`: split on commas and parse every
field as a float; `none` is the `ValueError` raise (an empty string splits to
one empty field, which does not parse — the empty-vector fault). -/
def deserializeTemplate (s : String) : Option (List ℚ) :=
  (s.splitOn ",").mapM pyFloat

/-! ## Cosine similarity and the matcher -/

/-- Dot product of two rational vectors (`zipWith` mirrors the elementwise
product; numpy would broadcast equal-length vectors the same way). -/
def dotQ (u v : List ℚ) : ℚ := (List.zipWith (· * ·) u v).sum

/-- `sklearn.metrics.pairwise.cosine_similarity` of two vectors, idealised
over the reals: the dot product divided by the product of the Euclidean
magnitudes.  (With a zero vector sklearn substitutes norm 1, returning 0;
here the numerator is then 0 as well, so the value agrees.) -/
noncomputable def cosineSim (u v : List ℚ) : ℝ :=
  ((dotQ u v : ℚ) : ℝ) / (Real.sqrt ((dotQ u u : ℚ) : ℝ) * Real.sqrt ((dotQ v v : ℚ) : ℝ))

/-- `self.threshold = 0.85` of `BiometricMatcher.__init__`. -/
def defaultThreshold : ℝ := 0.85

/-- The storage collaborator of the deep subsystem
(`DatabaseConnector.get_biometric_template`): the active encrypted template
of a user id, if any. -/
structure DeepDb where
  getBiometricTemplate : String → Option (List Nat)

open Classical in
/-- `BiometricMatcher.compare_templates(sensor_template, user_id)`.  Every
fault — missing or empty stored template, failed decryption, a field that
does not parse as a float, the sklearn dimension-mismatch raise — is caught
by the enclosing `except` and becomes `False`; otherwise the result is the
threshold comparison of the cosine similarity. -/
noncomputable def compareTemplates (threshold : ℝ) (db : DeepDb)
    (sensorTemplate userId : String) : Bool :=
  match db.getBiometricTemplate userId with
  | none => false
  | some enc =>
    if enc = [] then false
    else
      match decryptTemplate encryptionKey enc with
      | none => false
      | some storedStr =>
        match deserializeTemplate storedStr with
        | none => false
        | some stored =>
          match deserializeTemplate sensorTemplate with
          | none => false
          | some sensorVec =>
            if stored.length ≠ sensorVec.length then false
            else if threshold ≤ cosineSim stored sensorVec then true else false

/-- The exceptions `compare_templates`' `except Exception` handler can catch
and print: a failed decryption (`InvalidToken`), a template string that does
not deserialize as a float vector (`ValueError`, carrying the offending
string), or the sklearn dimension-mismatch raise (carrying the two lengths).
The constructors stand for the Python `str(e)` texts, which are produced by
the raising libraries, not by code in the repository. -/
inductive MatchFault where
  | decryptFailure
  | malformedVector (templateStr : String)
  | dimensionMismatch (storedLen sensorLen : Nat)
deriving DecidableEq, Repr

/-- The fault, if any, that `compare_templates`' `except` handler catches and
prints for a given comparison — the same case chain as `compareTemplates`,
recording which throw site fires.  The normal returns (no stored row, falsy
stored payload, threshold comparison) produce no fault and hence no error
print. -/
def compareFault (db : DeepDb) (sensorTemplate userId : String) : Option MatchFault :=
  match db.getBiometricTemplate userId with
  | none => none
  | some enc =>
    if enc = [] then none
    else
      match decryptTemplate encryptionKey enc with
      | none => some MatchFault.decryptFailure
      | some storedStr =>
        match deserializeTemplate storedStr with
        | none => some (MatchFault.malformedVector storedStr)
        | some stored =>
          match deserializeTemplate sensorTemplate with
          | none => some (MatchFault.malformedVector sensorTemplate)
          | some sensorVec =>
            if stored.length ≠ sensorVec.length then
              some (MatchFault.dimensionMismatch stored.length sensorVec.length)
            else none

/-! ## The access loop (`principal/main.py`) and the gate
(`hardware/gate_controller.py`)

One iteration of `BiometricAccessSystem.run` is embedded as the list of
observable effects it performs, in order: console prints — including the
`Erro na comparação de templates: …` line that `compare_templates`' `except`
handler prints while the call is in progress — GPIO writes, the blocking
sleeps, and the audit row handed to `DatabaseConnector.log_access`. -/

/-- Observable effects of one loop iteration.  `printMatchError f` is the
console line `Erro na comparação de templates: {e}` printed by the `except`
handler inside `compare_templates`, with `f` standing for the exception. -/
inductive Event where
  | printMsg (msg : String)
  | printMatchError (fault : MatchFault)
  | gpioHigh
  | gpioLow
  | sleepSecs (secs : Nat)
  | pollDelay
  | logAccess (userId : String) (accessGranted : Bool)
deriving DecidableEq, Repr

/-- `Config.GATE_OPEN_TIME` default (seconds). -/
def gateOpenTime : Nat := 5

/-- `GateController.open_gate`: raise the GPIO pin, sleep `GATE_OPEN_TIME`
seconds, lower the pin again — all before returning to the caller. -/
def openGateTrace : List Event :=
  [Event.gpioHigh, Event.sleepSecs gateOpenTime, Event.gpioLow]

/-- One iteration of `BiometricAccessSystem.run`: skip falsy readings
(`if user_id and template:`), print the reception line, run the match — whose
`except` handler prints an error line when a fault is caught — print the
decision, actuate the gate on a match, log the access, then the
`time.sleep(0.1)` poll delay. -/
noncomputable def runStep (db : DeepDb) (reading : Option (String × String)) : List Event :=
  match reading with
  | none => [Event.pollDelay]
  | some (userId, template) =>
    if userId = "" ∨ template = "" then [Event.pollDelay]
    else
      let granted := compareTemplates defaultThreshold db template userId
      [Event.printMsg ("Template recebido para o usuário: " ++ userId)] ++
      (match compareFault db template userId with
       | some fault => [Event.printMatchError fault]
       | none => []) ++
      (if granted then Event.printMsg "Acesso concedido" :: openGateTrace
       else [Event.printMsg "Acesso negado"]) ++
      [Event.logAccess userId granted, Event.pollDelay]

end Deep

/-! ## Concrete fixtures used to evaluate the embeddings -/

namespace BQS

/-- A storage collaborator whose unit lookup finds nothing, whose template
lookup succeeds with no match, and whose audit insert succeeds. -/
def trivialDb : Db :=
  { getUnitByCode := fun _ => none
    findBiometricByTemplate := fun _ _ => .ok none
    logAccessAttempt := fun _ _ _ _ => .ok 1 }

/-- The service of `trivialDb`, initialized with unit code `ETEC01`. -/
def svcDefault : ServiceState := mkService trivialDb "ETEC01"

end BQS

namespace Deep

/-- A deep store with a single enrolled template (encrypted at rest). -/
def singleDb (uid tmpl : String) : DeepDb :=
  { getBiometricTemplate := fun u =>
      if u = uid then some (encryptTemplate encryptionKey tmpl) else none }

/-- A deep store with two enrolled users: `A` stores the vector `1.0,0.0`,
`B` stores the vector `0.0,1.0`. -/
def twoUserDb : DeepDb :=
  { getBiometricTemplate := fun u =>
      if u = "A" then some (encryptTemplate encryptionKey "1.0,0.0")
      else if u = "B" then some (encryptTemplate encryptionKey "0.0,1.0")
      else none }

/-- A deep store where user `u1` stores the vector `1.0,2.0`. -/
def mainDb : DeepDb := singleDb "u1" "1.0,2.0"

end Deep

namespace Deep

/-! ## Cipher lemmas -/

theorem charToNat_isValidChar (c : Char) : Nat.isValidChar c.toNat := c.valid

theorem toNat_ofNat_of_valid {n : Nat} (h : Nat.isValidChar n) :
    (Char.ofNat n).toNat = n := by
  rw [Char.ofNat, dif_pos h]
  rfl

/-- The ciphertext of the modelled cipher, written as an explicit cons. -/
theorem encryptTemplate_def (key : Nat) (x : String) :
    encryptTemplate key x =
      macTag key (x.data.map (fun c => c.toNat ^^^ (key % 256))) ::
        x.data.map (fun c => c.toNat ^^^ (key % 256)) := rfl

/-- Round-trip of the modelled authenticated cipher. -/
theorem decryptTemplate_encryptTemplate (key : Nat) (x : String) :
    decryptTemplate key (encryptTemplate key x) = some x := by
  rw [encryptTemplate_def]
  simp only [decryptTemplate, if_true]
  have hall : (x.data.map (fun c => c.toNat ^^^ (key % 256))).all
      (fun b => decide (Nat.isValidChar (b ^^^ (key % 256)))) = true := by
    rw [List.all_eq_true]
    intro b hb
    rw [List.mem_map] at hb
    obtain ⟨c, _, rfl⟩ := hb
    rw [Nat.xor_cancel_right]
    exact decide_eq_true (charToNat_isValidChar c)
  rw [if_pos hall]
  have hback : ∀ c : Char,
      Char.ofNat ((c.toNat ^^^ (key % 256)) ^^^ (key % 256)) = c := fun c => by
    rw [Nat.xor_cancel_right]; exact Char.ofNat_toNat c
  cases x with
  | mk data =>
    congr 1
    rw [List.map_map]
    simp [Function.comp_def, hback]

/-- Fail-closed direction of the modelled authenticated cipher: a ciphertext
that decrypts at all is the honest encryption of its plaintext — any
tampered ciphertext (one that is not an encryption under the key) yields
`none`. -/
theorem decryptTemplate_fail_closed (key : Nat) (c : List Nat) (m : String)
    (h : decryptTemplate key c = some m) : c = encryptTemplate key m := by
  match c with
  | [] => simp [decryptTemplate] at h
  | tag :: body =>
    simp only [decryptTemplate] at h
    split at h
    next htag =>
      split at h
      next hvalid =>
        rw [Option.some_inj] at h
        subst h
        rw [encryptTemplate_def]
        have hb : (body.map (fun b => Char.ofNat (b ^^^ (key % 256)))).map
            (fun ch => ch.toNat ^^^ (key % 256)) = body := by
          rw [List.map_map]
          have : ∀ b ∈ body, ((fun ch => ch.toNat ^^^ (key % 256)) ∘
              (fun b => Char.ofNat (b ^^^ (key % 256)))) b = id b := by
            intro b hb
            have hv : Nat.isValidChar (b ^^^ (key % 256)) := by
              have := List.all_eq_true.mp hvalid b hb
              exact of_decide_eq_true this
            simp only [Function.comp_apply, id_eq]
            rw [toNat_ofNat_of_valid hv, Nat.xor_cancel_right]
          rw [List.map_congr_left this, List.map_id]
        simp only [String.data]
        rw [hb, htag]
      next => exact absurd h (by simp)
    next => exact absurd h (by simp)

/-! ## Cosine-similarity lemmas -/

theorem dotQ_cons (a b : ℚ) (u v : List ℚ) :
    dotQ (a :: u) (b :: v) = a * b + dotQ u v := by
  simp [dotQ]

theorem dotQ_self_nonneg (v : List ℚ) : 0 ≤ dotQ v v := by
  induction v with
  | nil => simp [dotQ]
  | cons a t ih =>
    rw [dotQ_cons]
    exact add_nonneg (mul_self_nonneg a) ih

/-- A vector with nonzero self dot product has cosine similarity exactly 1
with itself. -/
theorem cosineSim_self (v : List ℚ) (h : dotQ v v ≠ 0) : cosineSim v v = 1 := by
  have hpos : (0 : ℝ) < ((dotQ v v : ℚ) : ℝ) := by
    have h2 : (0 : ℚ) < dotQ v v := lt_of_le_of_ne (dotQ_self_nonneg v) (Ne.symm h)
    exact_mod_cast h2
  unfold cosineSim
  rw [Real.mul_self_sqrt hpos.le, div_self hpos.ne']

/-- Orthogonal (or degenerate) vectors have cosine similarity 0. -/
theorem cosineSim_of_dotQ_eq_zero (u v : List ℚ) (h : dotQ u v = 0) :
    cosineSim u v = 0 := by
  unfold cosineSim
  rw [h]
  simp

/-! ## Matcher lemmas -/

/-- A sensor template that does not deserialize makes `compare_templates`
return `False` (the caught `ValueError`), whatever the store holds. -/
theorem compareTemplates_sensor_malformed (θ : ℝ) (db : DeepDb)
    (sensorTemplate userId : String)
    (h : deserializeTemplate sensorTemplate = none) :
    compareTemplates θ db sensorTemplate userId = false := by
  unfold compareTemplates
  split
  · rfl
  · split
    · rfl
    · split
      · rfl
      · split
        · rfl
        · rw [h]

/-- `compare_templates` consults the store only through the single
`get_biometric_template(user_id)` row. -/
theorem compareTemplates_local (θ : ℝ) (db db' : DeepDb) (s userId : String)
    (h : db.getBiometricTemplate userId = db'.getBiometricTemplate userId) :
    compareTemplates θ db s userId = compareTemplates θ db' s userId := by
  unfold compareTemplates
  rw [h]

/-- Evaluation shape of `compare_templates` on the fault-free path: with an
enrolled encryption of `tmpl` for `userId` and both vectors deserializing to
equal lengths, the result is exactly the threshold comparison. -/
theorem compareTemplates_eval (θ : ℝ) (db : DeepDb) (s userId tmpl : String)
    (stored sensor : List ℚ)
    (hdb : db.getBiometricTemplate userId = some (encryptTemplate encryptionKey tmpl))
    (hst : deserializeTemplate tmpl = some stored)
    (hse : deserializeTemplate s = some sensor)
    (hlen : stored.length = sensor.length) :
    (compareTemplates θ db s userId = true ↔ θ ≤ cosineSim stored sensor) := by
  unfold compareTemplates
  simp only [hdb]
  rw [if_neg (by rw [encryptTemplate_def]; exact List.cons_ne_nil _ _)]
  simp only [decryptTemplate_encryptTemplate, hst, hse]
  rw [if_neg (by simp [hlen])]
  by_cases h : θ ≤ cosineSim stored sensor
  · simp [h]
  · simp [h]

/-! ## Concrete matcher evaluations -/

theorem compare_granted_example :
    compareTemplates defaultThreshold mainDb "1.0,2.0" "u1" = true := by
  have h := compareTemplates_eval defaultThreshold mainDb "1.0,2.0" "u1" "1.0,2.0"
    [1, 2] [1, 2] (by with_unfolding_all rfl) (by with_unfolding_all rfl)
    (by with_unfolding_all rfl) rfl
  refine h.mpr ?_
  rw [cosineSim_self [1, 2] (by norm_num [dotQ])]
  norm_num [defaultThreshold]

theorem compare_denied_example :
    compareTemplates defaultThreshold mainDb "2.0,-1.0" "u1" = false := by
  have h := compareTemplates_eval defaultThreshold mainDb "2.0,-1.0" "u1" "1.0,2.0"
    [1, 2] [2, -1] (by with_unfolding_all rfl) (by with_unfolding_all rfl)
    (by with_unfolding_all rfl) rfl
  rw [Bool.eq_false_iff]
  intro hc
  have := h.mp hc
  rw [cosineSim_of_dotQ_eq_zero [1, 2] [2, -1] (by norm_num [dotQ])] at this
  norm_num [defaultThreshold] at this

theorem compare_twoUser_A_example :
    compareTemplates defaultThreshold twoUserDb "0.0,1.0" "A" = false := by
  have h := compareTemplates_eval defaultThreshold twoUserDb "0.0,1.0" "A" "1.0,0.0"
    [1, 0] [0, 1] (by with_unfolding_all rfl) (by with_unfolding_all rfl)
    (by with_unfolding_all rfl) rfl
  rw [Bool.eq_false_iff]
  intro hc
  have := h.mp hc
  rw [cosineSim_of_dotQ_eq_zero [1, 0] [0, 1] (by norm_num [dotQ])] at this
  norm_num [defaultThreshold] at this

theorem compare_zero_example :
    compareTemplates defaultThreshold (singleDb "u1" "0.0") "0.0" "u1" = false := by
  have h := compareTemplates_eval defaultThreshold (singleDb "u1" "0.0") "0.0" "u1" "0.0"
    [0] [0] (by with_unfolding_all rfl) (by with_unfolding_all rfl)
    (by with_unfolding_all rfl) rfl
  rw [Bool.eq_false_iff]
  intro hc
  have := h.mp hc
  rw [cosineSim_of_dotQ_eq_zero [0] [0] (by norm_num [dotQ])] at this
  norm_num [defaultThreshold] at this

/-! ## Run-loop trace lemmas -/

/-- A comparison that grants access reached the threshold return, so the
`except` handler fired on none of the throw sites. -/
theorem compareFault_none_of_granted (θ : ℝ) (db : DeepDb) (s userId : String)
    (hc : compareTemplates θ db s userId = true) :
    compareFault db s userId = none := by
  unfold compareTemplates at hc
  unfold compareFault
  cases hdb : db.getBiometricTemplate userId with
  | none =>
    simp only [hdb] at hc
    exact absurd hc (by simp)
  | some enc =>
    simp only [hdb] at hc ⊢
    by_cases henc : enc = []
    · rw [if_pos henc] at hc
      exact absurd hc (by simp)
    · rw [if_neg henc] at hc
      rw [if_neg henc]
      cases hdec : decryptTemplate encryptionKey enc with
      | none =>
        simp only [hdec] at hc
        exact absurd hc (by simp)
      | some storedStr =>
        simp only [hdec] at hc ⊢
        cases hst : deserializeTemplate storedStr with
        | none =>
          simp only [hst] at hc
          exact absurd hc (by simp)
        | some stored =>
          simp only [hst] at hc ⊢
          cases hse : deserializeTemplate s with
          | none =>
            simp only [hse] at hc
            exact absurd hc (by simp)
          | some sensorVec =>
            simp only [hse] at hc ⊢
            by_cases hlen : stored.length ≠ sensorVec.length
            · rw [if_pos hlen] at hc
              exact absurd hc (by simp)
            · rw [if_neg hlen]

/-- A comparison whose `except` handler fired returns `False`. -/
theorem compareTemplates_false_of_fault (θ : ℝ) (db : DeepDb) (s userId : String)
    (f : MatchFault) (hf : compareFault db s userId = some f) :
    compareTemplates θ db s userId = false := by
  cases hc : compareTemplates θ db s userId
  · rfl
  · rw [compareFault_none_of_granted θ db s userId hc] at hf
    exact absurd hf (by simp)

theorem runStep_granted_trace (db : DeepDb) (uid tmpl : String)
    (h : ¬(uid = "" ∨ tmpl = ""))
    (hc : compareTemplates defaultThreshold db tmpl uid = true) :
    runStep db (some (uid, tmpl)) =
      [Event.printMsg ("Template recebido para o usuário: " ++ uid),
       Event.printMsg "Acesso concedido", Event.gpioHigh,
       Event.sleepSecs gateOpenTime, Event.gpioLow,
       Event.logAccess uid true, Event.pollDelay] := by
  have hf := compareFault_none_of_granted defaultThreshold db tmpl uid hc
  simp only [runStep]
  rw [if_neg h]
  simp [hc, hf, openGateTrace]

/-- The trace of a legitimate non-match: the comparison returns `False`
through a normal return (no caught fault, hence no error print). -/
theorem runStep_denied_trace (db : DeepDb) (uid tmpl : String)
    (h : ¬(uid = "" ∨ tmpl = ""))
    (hc : compareTemplates defaultThreshold db tmpl uid = false)
    (hf : compareFault db tmpl uid = none) :
    runStep db (some (uid, tmpl)) =
      [Event.printMsg ("Template recebido para o usuário: " ++ uid),
       Event.printMsg "Acesso negado", Event.logAccess uid false, Event.pollDelay] := by
  simp only [runStep]
  rw [if_neg h]
  simp [hc, hf]

/-- The trace of a faulting comparison: the `except` handler prints its error
line during the call, then the iteration continues exactly as a denial. -/
theorem runStep_fault_trace (db : DeepDb) (uid tmpl : String) (f : MatchFault)
    (h : ¬(uid = "" ∨ tmpl = ""))
    (hf : compareFault db tmpl uid = some f) :
    runStep db (some (uid, tmpl)) =
      [Event.printMsg ("Template recebido para o usuário: " ++ uid),
       Event.printMatchError f,
       Event.printMsg "Acesso negado", Event.logAccess uid false, Event.pollDelay] := by
  have hc := compareTemplates_false_of_fault defaultThreshold db tmpl uid f hf
  simp only [runStep]
  rw [if_neg h]
  simp [hc, hf]

theorem runStep_gpioHigh_iff (db : DeepDb) (reading : Option (String × String)) :
    Event.gpioHigh ∈ runStep db reading ↔
      ∃ uid tmpl, reading = some (uid, tmpl) ∧ ¬(uid = "" ∨ tmpl = "") ∧
        compareTemplates defaultThreshold db tmpl uid = true := by
  cases reading with
  | none => simp [runStep]
  | some pr =>
    obtain ⟨uid, tmpl⟩ := pr
    simp only [runStep]
    by_cases h : uid = "" ∨ tmpl = ""
    · rw [if_pos h]
      simp only [List.mem_singleton]
      constructor
      · intro hmem
        exact absurd hmem (by simp)
      · rintro ⟨u, t, heq, hne, -⟩
        rw [Option.some_inj, Prod.mk.injEq] at heq
        exact absurd (heq.1 ▸ heq.2 ▸ h) hne
    · rw [if_neg h]
      cases hfo : compareFault db tmpl uid with
      | some f =>
        have hc := compareTemplates_false_of_fault defaultThreshold db tmpl uid f hfo
        constructor
        · intro hmem
          exfalso
          revert hmem
          simp [hc, hfo, openGateTrace]
        · rintro ⟨u, t, heq, -, hcomp⟩
          rw [Option.some_inj, Prod.mk.injEq] at heq
          rw [← heq.1, ← heq.2] at hcomp
          rw [hc] at hcomp
          exact absurd hcomp (by simp)
      | none =>
        cases hc : compareTemplates defaultThreshold db tmpl uid
        · constructor
          · intro hmem
            exfalso
            revert hmem
            simp [hc, hfo, openGateTrace]
          · rintro ⟨u, t, heq, -, hcomp⟩
            rw [Option.some_inj, Prod.mk.injEq] at heq
            rw [← heq.1, ← heq.2] at hcomp
            rw [hc] at hcomp
            exact absurd hcomp (by simp)
        · constructor
          · intro _
            exact ⟨uid, tmpl, rfl, h, hc⟩
          · intro _
            simp [hc, hfo, openGateTrace]

end Deep

namespace BQS

/-! ## Decision-engine lemmas -/

/-- Every run of `process_biometric_query` ends in one of two shapes: an
error response with no audit entry, or a granted/denied response with exactly
one audit entry. -/
theorem processBiometricQuery_cases (db : Db) (svc : ServiceState) (t f : String) :
    (∃ msg, processBiometricQuery db svc t f = (createErrorResponse svc msg, [])) ∨
    (∃ p res, res = (if p.isSome then AccessResult.GRANTED else AccessResult.DENIED) ∧
      processBiometricQuery db svc t f =
        (createResponse svc res p, [mkLogCall svc p res])) := by
  unfold processBiometricQuery
  split
  · exact Or.inl ⟨_, rfl⟩
  · split
    · exact Or.inl ⟨_, rfl⟩
    · split
      · exact Or.inl ⟨_, rfl⟩
      · exact Or.inr ⟨_, _, rfl, rfl⟩

theorem createErrorResponse_result (svc : ServiceState) (msg : String) :
    (createErrorResponse svc msg).result = "ERROR" := rfl

theorem createResponse_result_ne_error (svc : ServiceState) (p : Option PersonInfo) :
    (createResponse svc (if p.isSome then AccessResult.GRANTED else AccessResult.DENIED) p).result ≠
      "ERROR" := by
  cases p <;> simp [createResponse, AccessResult.value]

/-- The `error` key is present on a response iff its result is `ERROR`. -/
theorem processBiometricQuery_error_iff (db : Db) (svc : ServiceState) (t f : String) :
    ((processBiometricQuery db svc t f).1.error.isSome ↔
      (processBiometricQuery db svc t f).1.result = "ERROR") := by
  rcases processBiometricQuery_cases db svc t f with ⟨msg, h⟩ | ⟨p, res, hres, h⟩
  · rw [h]
    simp [createErrorResponse, AccessResult.value]
  · rw [h]
    subst hres
    cases p <;> simp [createResponse, AccessResult.value]

/-- A query response result is one of the three decision strings. -/
theorem processBiometricQuery_result_mem (db : Db) (svc : ServiceState) (t f : String) :
    (processBiometricQuery db svc t f).1.result = "ERROR" ∨
    (processBiometricQuery db svc t f).1.result = "GRANTED" ∨
    (processBiometricQuery db svc t f).1.result = "DENIED" := by
  rcases processBiometricQuery_cases db svc t f with ⟨msg, h⟩ | ⟨p, res, hres, h⟩
  · rw [h]
    exact Or.inl rfl
  · rw [h]
    subst hres
    cases p <;> simp [createResponse, AccessResult.value]

/-- Every audit entry a query produces is attributed to the unit resolved at
service initialization. -/
theorem processBiometricQuery_logs_unit (db : Db) (svc : ServiceState) (t f : String) :
    ∀ lc ∈ (processBiometricQuery db svc t f).2, lc.unit_id = svc.unit_info.id := by
  rcases processBiometricQuery_cases db svc t f with ⟨msg, h⟩ | ⟨p, res, hres, h⟩
  · rw [h]
    intro lc hlc
    simp at hlc
  · rw [h]
    intro lc hlc
    rw [List.mem_singleton] at hlc
    subst hlc
    rfl

/-- When the template string is rejected by the base64 decoder, validation
fails with a non-empty message (whichever of its three checks fires). -/
theorem validateInput_some_of_b64_error (t f : String)
    (h : ∃ msg, pyB64Decode t = Except.error msg) :
    ∃ m, validateInput t f = some m ∧ m ≠ "" := by
  unfold validateInput
  split
  · exact ⟨_, rfl, by decide⟩
  · split
    · exact ⟨_, rfl, by with_unfolding_all decide⟩
    · obtain ⟨msg, hmsg⟩ := h
      rw [hmsg]
      exact ⟨_, rfl, by decide⟩

/-! ## Claims about the query service -/

/-- C1 (counterexample): the spec claims exactly one access-log entry per
query, synchronously, regardless of outcome including ERROR.  At the concrete
input of an empty template string the query returns an ERROR response and
produces no audit entry at all. -/
theorem C1_counterexample :
    (processBiometricQuery trivialDb svcDefault "" "index_right").1.result = "ERROR" ∧
    (processBiometricQuery trivialDb svcDefault "" "index_right").2 = [] := by
  constructor
  · with_unfolding_all rfl
  · with_unfolding_all rfl

/-- C1 (amended): exactly one audit entry is produced per query iff the
decision is GRANTED or DENIED (equivalently, iff the result is not ERROR);
ERROR responses — validation failures and caught faults — produce none; and
the response is independent of the outcome of the audit insert, so a logging
failure never alters the decision. -/
theorem C1_amended (db : Db) (svc : ServiceState) (t f : String) :
    ((processBiometricQuery db svc t f).1.result = "ERROR" ↔
      (processBiometricQuery db svc t f).2 = []) ∧
    ((processBiometricQuery db svc t f).1.result ≠ "ERROR" ↔
      (processBiometricQuery db svc t f).2.length = 1) ∧
    (∀ g, (processBiometricQuery { db with logAccessAttempt := g } svc t f).1 =
      (processBiometricQuery db svc t f).1) := by
  refine ⟨?_, ?_, fun g => rfl⟩
  · rcases processBiometricQuery_cases db svc t f with ⟨msg, h⟩ | ⟨p, res, hres, h⟩
    · rw [h]
      simp [createErrorResponse, AccessResult.value]
    · rw [h]
      subst hres
      cases p <;> simp [createResponse, AccessResult.value]
  · rcases processBiometricQuery_cases db svc t f with ⟨msg, h⟩ | ⟨p, res, hres, h⟩
    · rw [h]
      simp [createErrorResponse, AccessResult.value]
    · rw [h]
      subst hres
      cases p <;> simp [createResponse, AccessResult.value]

/-- C1 (witness): a well-formed query that ends in DENIED produces exactly
one audit entry. -/
theorem C1_witness :
    (processBiometricQuery trivialDb svcDefault "????" "index_right").2.length = 1 :=
  (C1_amended trivialDb svcDefault "????" "index_right").2.1.mp
    (by with_unfolding_all decide)

/-- C2 (counterexample): the spec claims every malformed base64 template —
including strings containing characters outside the base64 alphabet — yields
an ERROR response.  `????` consists only of characters outside the base64
alphabet, yet `b64decode` silently discards them, decodes the template to
empty bytes, and the query proceeds to a normal DENIED lookup with no error
field. -/
theorem C2_counterexample :
    ("????" : String).data.all (fun c => (b64Val c).isNone) = true ∧
    (processBiometricQuery trivialDb svcDefault "????" "index_right").1.result = "DENIED" ∧
    (processBiometricQuery trivialDb svcDefault "????" "index_right").1.result ≠ "ERROR" ∧
    (processBiometricQuery trivialDb svcDefault "????" "index_right").1.error = none := by
  refine ⟨by decide, ?_, ?_, ?_⟩
  · with_unfolding_all rfl
  · with_unfolding_all decide
  · with_unfolding_all rfl

/-- C2 (amended): for every template string that the base64 decoder rejects,
the query returns result ERROR with `access_granted = false` and a non-empty
error message, and (the embedding being total) never raises past the query
boundary; template strings the decoder accepts after discarding non-alphabet
characters are processed as ordinary lookups instead. -/
theorem C2_amended (db : Db) (svc : ServiceState) (t f : String)
    (h : ∃ msg, pyB64Decode t = Except.error msg) :
    (processBiometricQuery db svc t f).1.result = "ERROR" ∧
    (processBiometricQuery db svc t f).1.access_granted = false ∧
    ∃ e, (processBiometricQuery db svc t f).1.error = some e ∧ e ≠ "" := by
  obtain ⟨m, hm, hne⟩ := validateInput_some_of_b64_error t f h
  simp only [processBiometricQuery, hm]
  exact ⟨rfl, rfl, m, rfl, hne⟩

/-- C2 (witness): the repository test string `invalid_base64_data!!!` leaves
17 data characters after discarding, is rejected by the decoder, and yields
an ERROR response with a non-empty message. -/
theorem C2_witness :
    (processBiometricQuery trivialDb svcDefault "invalid_base64_data!!!" "middle_right").1.result = "ERROR" ∧
    (processBiometricQuery trivialDb svcDefault "invalid_base64_data!!!" "middle_right").1.access_granted = false ∧
    ∃ e, (processBiometricQuery trivialDb svcDefault "invalid_base64_data!!!" "middle_right").1.error = some e ∧ e ≠ "" :=
  C2_amended trivialDb svcDefault "invalid_base64_data!!!" "middle_right"
    ⟨"Invalid base64-encoded string: number of data characters cannot be 1 more than a multiple of 4",
     by with_unfolding_all rfl⟩

/-- C5 (counterexample): the spec claims an `error` field is present iff the
decision is ERROR.  An unknown sensor command produces a response whose
result is `UNKNOWN_COMMAND`, not `ERROR`, yet carries an `error` field. -/
theorem C5_counterexample :
    (processCommand trivialDb svcDefault ⟨"FOO", "", ""⟩).1.error.isSome = true ∧
    (processCommand trivialDb svcDefault ⟨"FOO", "", ""⟩).1.result = "UNKNOWN_COMMAND" ∧
    (processCommand trivialDb svcDefault ⟨"FOO", "", ""⟩).1.result ≠ "ERROR" := by
  refine ⟨?_, ?_, ?_⟩
  · with_unfolding_all rfl
  · with_unfolding_all rfl
  · with_unfolding_all decide

/-- C5 (amended): an `error` field is present in a command-cycle response iff
the result is ERROR or UNKNOWN_COMMAND; GRANTED, DENIED and TEST_OK responses
carry none. -/
theorem C5_amended (db : Db) (svc : ServiceState) (cmd : Command) :
    ((processCommand db svc cmd).1.error.isSome ↔
      ((processCommand db svc cmd).1.result = "ERROR" ∨
       (processCommand db svc cmd).1.result = "UNKNOWN_COMMAND")) := by
  simp only [processCommand]
  split
  · have h1 := processBiometricQuery_error_iff db svc cmd.template cmd.finger
    have h2 := processBiometricQuery_result_mem db svc cmd.template cmd.finger
    constructor
    · exact fun hr => Or.inl (h1.mp hr)
    · rintro (hr | hr)
      · exact h1.mpr hr
      · rcases h2 with h2 | h2 | h2 <;> rw [h2] at hr <;> exact absurd hr (by decide)
  · split
    · simp
    · simp

/-- C5 (witness): a TEST command reports `TEST_OK` with no `error` field, in
accordance with the amended equivalence. -/
theorem C5_witness :
    ((processCommand trivialDb svcDefault ⟨"TEST", "", ""⟩).1.error.isSome ↔
      ((processCommand trivialDb svcDefault ⟨"TEST", "", ""⟩).1.result = "ERROR" ∨
       (processCommand trivialDb svcDefault ⟨"TEST", "", ""⟩).1.result = "UNKNOWN_COMMAND")) :=
  C5_amended trivialDb svcDefault ⟨"TEST", "", ""⟩

/-- C6 (code evaluation): the source f-string `"{sensor_response}\\n"`
appends the two characters backslash and `n`, so the line written to the
sensor is `YES` followed by a literal backslash and `n` — it is not
newline-terminated and is not exactly `YES`; the claimed behaviour is the
newline-terminated `YES`. -/
theorem C6_code_evaluation :
    sendResponse (processCommand trivialDb svcDefault ⟨"TEST", "", ""⟩).1 = "YES\\n" ∧
    sendResponse (createErrorResponse svcDefault "boom") = "NO\\n" ∧
    ("YES\\n" : String) ≠ "YES\n" ∧
    ("YES\\n" : String) ≠ "YES" ∧
    ("YES\\n" : String).data.getLast? = some 'n' := by
  refine ⟨?_, ?_, by decide, by decide, by decide⟩
  · with_unfolding_all rfl
  · with_unfolding_all rfl

/-- C10: when the unit-code lookup finds nothing, initialization substitutes
the default unit record with id 1 and every audit entry of the session is
attributed to unit 1. -/
theorem C10_default_unit (db : Db) (code : String)
    (h : db.getUnitByCode code = none) :
    (mkService db code).unit_info.id = 1 ∧
    ∀ t f, ∀ lc ∈ (processBiometricQuery db (mkService db code) t f).2,
      lc.unit_id = 1 := by
  have h1 : initializeUnit db code =
      { id := 1, name := "Default Unit", unit_code := code } := by
    unfold initializeUnit
    rw [h]
  have h2 : (mkService db code).unit_info.id = 1 := by
    unfold mkService
    rw [h1]
  refine ⟨h2, fun t f lc hlc => ?_⟩
  rw [processBiometricQuery_logs_unit db (mkService db code) t f lc hlc]
  exact h2

/-- C10 (witness): `trivialDb` has no unit row for `ETEC01`; the service
falls back to unit id 1 and the DENIED query's audit entry carries
`unit_id = 1`. -/
theorem C10_witness :
    (mkService trivialDb "ETEC01").unit_info.id = 1 ∧
    (mkLogCall svcDefault none AccessResult.DENIED).unit_id = 1 :=
  ⟨(C10_default_unit trivialDb "ETEC01" rfl).1,
   (C10_default_unit trivialDb "ETEC01" rfl).2 "????" "index_right"
     (mkLogCall svcDefault none AccessResult.DENIED)
     (by with_unfolding_all decide)⟩

end BQS

namespace Deep

/-! ## Claims about the deep access loop -/

set_option maxRecDepth 16000 in
/-- C3 (counterexample): the spec claims a matching-input fault (template not
parsing as floats) yields an ERROR access decision distinct from DENIED.  For
the unparsable sensor template `abc` the caught fault is only reported on the
operator console (`Erro na comparação de templates: …`); the access decision
observables are those of a denial — the `Acesso negado` print, an
`access_granted = false` audit row, and no gate actuation.  There is no ERROR
decision in the response or the audit trail. -/
theorem C3_counterexample :
    deserializeTemplate "abc" = none ∧
    compareFault mainDb "abc" "u1" = some (MatchFault.malformedVector "abc") ∧
    runStep mainDb (some ("u1", "abc")) =
      [Event.printMsg "Template recebido para o usuário: u1",
       Event.printMatchError (MatchFault.malformedVector "abc"),
       Event.printMsg "Acesso negado",
       Event.logAccess "u1" false, Event.pollDelay] ∧
    Event.gpioHigh ∉ runStep mainDb (some ("u1", "abc")) := by
  have h1 : deserializeTemplate "abc" = none := by with_unfolding_all rfl
  have hf : compareFault mainDb "abc" "u1" = some (MatchFault.malformedVector "abc") := by
    with_unfolding_all rfl
  have hne : ¬(("u1" : String) = "" ∨ ("abc" : String) = "") := by decide
  have t := runStep_fault_trace mainDb "u1" "abc" (MatchFault.malformedVector "abc") hne hf
  refine ⟨h1, hf, ?_, ?_⟩
  · rw [t]
    decide
  · rw [t]
    decide

/-- C3 (amended): every matching-input fault in the similarity path is caught
inside `compare_templates`, which prints the operator-console error line
`Erro na comparação de templates: …` and returns a non-match; the loop
iteration then proceeds as a denial — it prints `Acesso negado`, writes an
`access_granted = false` audit row, does not actuate the gate — and, the
embedding being total, the fault is never fatal to the process.  The access
decision and audit record are those of DENIED; no ERROR decision distinct
from DENIED exists in this path, the fault being visible only in the console
error line. -/
theorem C3_amended (db : DeepDb) (uid tmpl : String)
    (hu : ¬(uid = "" ∨ tmpl = "")) (h : deserializeTemplate tmpl = none) :
    compareTemplates defaultThreshold db tmpl uid = false ∧
    Event.gpioHigh ∉ runStep db (some (uid, tmpl)) ∧
    Event.logAccess uid false ∈ runStep db (some (uid, tmpl)) ∧
    Event.printMsg "Acesso negado" ∈ runStep db (some (uid, tmpl)) := by
  have hc := compareTemplates_sensor_malformed defaultThreshold db tmpl uid h
  cases hfo : compareFault db tmpl uid with
  | none =>
    have t := runStep_denied_trace db uid tmpl hu hc hfo
    refine ⟨hc, ?_, ?_, ?_⟩ <;> rw [t] <;> simp
  | some f =>
    have t := runStep_fault_trace db uid tmpl f hu hfo
    refine ⟨hc, ?_, ?_, ?_⟩ <;> rw [t] <;> simp

/-- C3 (witness): the unparsable template `abc` against the store with `u1`
enrolled is denied — denial print, false audit row, no gate actuation. -/
theorem C3_witness :
    compareTemplates defaultThreshold mainDb "abc" "u1" = false ∧
    Event.gpioHigh ∉ runStep mainDb (some ("u1", "abc")) ∧
    Event.logAccess "u1" false ∈ runStep mainDb (some ("u1", "abc")) ∧
    Event.printMsg "Acesso negado" ∈ runStep mainDb (some ("u1", "abc")) :=
  C3_amended mainDb "u1" "abc" (by decide) (by with_unfolding_all rfl)

/-- C4 (counterexample): the spec claims the match selects the candidate with
the highest cosine similarity among all clearing the threshold.  In a store
where enrolled user `B` holds exactly the presented vector `0.0,1.0` (cosine
similarity 1, clearing the 0.85 threshold — the highest possible score), a
match invoked with the reading's claimed user id `A` returns false: no
candidate other than the single row of the claimed user is ever consulted,
so no best-of-N selection (nor any owner-id tie-break) takes place. -/
theorem C4_counterexample :
    deserializeTemplate "0.0,1.0" = some [0, 1] ∧
    cosineSim [0, 1] [0, 1] = 1 ∧
    defaultThreshold ≤ 1 ∧
    twoUserDb.getBiometricTemplate "B" = some (encryptTemplate encryptionKey "0.0,1.0") ∧
    compareTemplates defaultThreshold twoUserDb "0.0,1.0" "A" = false := by
  refine ⟨by with_unfolding_all rfl, ?_, by norm_num [defaultThreshold],
    by with_unfolding_all rfl, compare_twoUser_A_example⟩
  exact cosineSim_self [0, 1] (by norm_num [dotQ])

/-- C4 (amended): the similarity matcher consults the store only through the
single active template of the claimed user id — its result is unchanged by
any modification of other rows — and on the fault-free path it returns
exactly the threshold comparison of the cosine similarity against that one
template. -/
theorem C4_amended :
    (∀ (θ : ℝ) (db db' : DeepDb) (s userId : String),
      db.getBiometricTemplate userId = db'.getBiometricTemplate userId →
      compareTemplates θ db s userId = compareTemplates θ db' s userId) ∧
    (∀ (θ : ℝ) (db : DeepDb) (s userId tmpl : String) (stored sensor : List ℚ),
      db.getBiometricTemplate userId = some (encryptTemplate encryptionKey tmpl) →
      deserializeTemplate tmpl = some stored →
      deserializeTemplate s = some sensor →
      stored.length = sensor.length →
      (compareTemplates θ db s userId = true ↔ θ ≤ cosineSim stored sensor)) :=
  ⟨compareTemplates_local, compareTemplates_eval⟩

/-- C4 (witness): deleting user `B` from the two-user store does not change
the outcome of a match claimed as user `A`. -/
theorem C4_witness :
    compareTemplates defaultThreshold twoUserDb "0.0,1.0" "A" =
      compareTemplates defaultThreshold (singleDb "A" "1.0,0.0") "0.0,1.0" "A" :=
  C4_amended.1 defaultThreshold twoUserDb (singleDb "A" "1.0,0.0") "0.0,1.0" "A"
    (by with_unfolding_all rfl)

/-- C7 (counterexample): the spec claims the core does not wait for the
actuation's completion before continuing its loop.  On a granted cycle the
trace shows the blocking `time.sleep(GATE_OPEN_TIME)` and the gate-closing
GPIO write strictly before the audit write that continues the iteration: the
loop resumes only after the actuation has completed. -/
theorem C7_counterexample :
    compareTemplates defaultThreshold mainDb "1.0,2.0" "u1" = true ∧
    (runStep mainDb (some ("u1", "1.0,2.0"))).indexOf (Event.sleepSecs gateOpenTime) <
      (runStep mainDb (some ("u1", "1.0,2.0"))).indexOf (Event.logAccess "u1" true) ∧
    (runStep mainDb (some ("u1", "1.0,2.0"))).indexOf Event.gpioLow <
      (runStep mainDb (some ("u1", "1.0,2.0"))).indexOf (Event.logAccess "u1" true) := by
  have t := runStep_granted_trace mainDb "u1" "1.0,2.0" (by decide) compare_granted_example
  refine ⟨compare_granted_example, ?_, ?_⟩ <;> rw [t] <;> decide

/-- C7 (amended): the gate signal is raised in a loop iteration iff the
reading is non-falsy and the match grants access — never on a denial or a
fault — but the actuation is synchronous: a granted iteration sleeps
`GATE_OPEN_TIME` seconds and closes the gate again before logging the access
and polling anew. -/
theorem C7_amended :
    (∀ (db : DeepDb) (reading : Option (String × String)),
      Event.gpioHigh ∈ runStep db reading ↔
        ∃ uid tmpl, reading = some (uid, tmpl) ∧ ¬(uid = "" ∨ tmpl = "") ∧
          compareTemplates defaultThreshold db tmpl uid = true) ∧
    (∀ (db : DeepDb) (uid tmpl : String),
      ¬(uid = "" ∨ tmpl = "") →
      compareTemplates defaultThreshold db tmpl uid = true →
      runStep db (some (uid, tmpl)) =
        [Event.printMsg ("Template recebido para o usuário: " ++ uid),
         Event.printMsg "Acesso concedido", Event.gpioHigh,
         Event.sleepSecs gateOpenTime, Event.gpioLow,
         Event.logAccess uid true, Event.pollDelay]) :=
  ⟨runStep_gpioHigh_iff, runStep_granted_trace⟩

/-- C7 (witness): the granted cycle for `u1` raises the gate and runs the
full synchronous actuation before its audit write. -/
theorem C7_witness :
    runStep mainDb (some ("u1", "1.0,2.0")) =
      [Event.printMsg "Template recebido para o usuário: u1",
       Event.printMsg "Acesso concedido", Event.gpioHigh,
       Event.sleepSecs gateOpenTime, Event.gpioLow,
       Event.logAccess "u1" true, Event.pollDelay] :=
  (C7_amended.2 mainDb "u1" "1.0,2.0" (by decide) compare_granted_example).trans
    (by decide)

set_option maxRecDepth 16000 in
/-- C8: round-trip and fail-closed authentication of the modelled cipher
behind `encrypt_template` / `decrypt_template`: decryption inverts encryption
under the process key, a ciphertext that decrypts at all is the honest
encryption of its plaintext (so any tampered ciphertext is rejected), and a
concretely tampered ciphertext decrypts to `none`. -/
theorem C8_roundtrip_authenticated :
    (∀ x : String,
      decryptTemplate encryptionKey (encryptTemplate encryptionKey x) = some x) ∧
    (∀ (c : List Nat) (m : String),
      decryptTemplate encryptionKey c = some m → c = encryptTemplate encryptionKey m) ∧
    decryptTemplate encryptionKey (encryptTemplate encryptionKey "1.0,2.0" ++ [0]) = none := by
  refine ⟨fun x => decryptTemplate_encryptTemplate encryptionKey x,
    fun c m h => decryptTemplate_fail_closed encryptionKey c m h, ?_⟩
  with_unfolding_all rfl

/-- C8 (witness): the round-trip and the fail-closed direction evaluated at
the concrete template `7.5,0.25`. -/
theorem C8_witness :
    decryptTemplate encryptionKey (encryptTemplate encryptionKey "7.5,0.25") = some "7.5,0.25" ∧
    encryptTemplate encryptionKey "7.5,0.25" = encryptTemplate encryptionKey "7.5,0.25" :=
  ⟨C8_roundtrip_authenticated.1 "7.5,0.25",
   C8_roundtrip_authenticated.2.1 (encryptTemplate encryptionKey "7.5,0.25") "7.5,0.25"
     (C8_roundtrip_authenticated.1 "7.5,0.25")⟩

/-- C9 (counterexample): the spec claims every stored vector compared against
itself scores 1.0 and matches for any threshold at most 1.  The stored
all-zeros vector `0.0` compared against itself scores 0 (sklearn substitutes
norm 1 for a zero row), which is not 1, and the match at the code threshold
0.85 is false. -/
theorem C9_counterexample :
    deserializeTemplate "0.0" = some [0] ∧
    cosineSim [0] [0] = 0 ∧
    ((0 : ℝ) ≠ 1) ∧
    compareTemplates defaultThreshold (singleDb "u1" "0.0") "0.0" "u1" = false :=
  ⟨by with_unfolding_all rfl,
   cosineSim_of_dotQ_eq_zero [0] [0] (by norm_num [dotQ]),
   by norm_num,
   compare_zero_example⟩

/-- C9 (amended): every stored vector with a nonzero entry (equivalently,
nonzero self dot product) compared against itself yields cosine similarity
exactly 1, and the match succeeds for any threshold at most 1. -/
theorem C9_amended (θ : ℝ) (userId tmpl : String) (v : List ℚ)
    (hθ : θ ≤ 1) (hdes : deserializeTemplate tmpl = some v) (hv : dotQ v v ≠ 0) :
    cosineSim v v = 1 ∧
    compareTemplates θ (singleDb userId tmpl) tmpl userId = true := by
  have h1 := cosineSim_self v hv
  refine ⟨h1, ?_⟩
  have hdb : (singleDb userId tmpl).getBiometricTemplate userId =
      some (encryptTemplate encryptionKey tmpl) := by
    simp [singleDb]
  exact (compareTemplates_eval θ (singleDb userId tmpl) tmpl userId tmpl v v
    hdb hdes hdes rfl).mpr (by rw [h1]; exact hθ)

/-- C9 (witness): the nonzero vector `1.0,2.0` against itself scores 1 and
matches at the code threshold 0.85. -/
theorem C9_witness :
    cosineSim [1, 2] [1, 2] = 1 ∧
    compareTemplates defaultThreshold (singleDb "u9" "1.0,2.0") "1.0,2.0" "u9" = true :=
  C9_amended defaultThreshold "u9" "1.0,2.0" [1, 2]
    (by norm_num [defaultThreshold]) (by with_unfolding_all rfl) (by norm_num [dotQ])

end Deep
